import Mathlib

/-!
Verification of the sales-data repository: a shallow embedding of the
generator script (gerar_arquivos_csv_vendas.py) and of the dashboard's
transform / filter / aggregate pipeline (dashboard_vendas_projeto.py),
with theorems settling the specification claims.
-/

/-- IEEE-754 double values as held in pandas float columns: finite values are
modeled exactly by rationals, and `nan`, `inf`, `ninf` model the special values
produced by invalid operations and by division by zero (signed zero is not
distinguished; none of the modeled code can observe it). -/
inductive FV where
  | num : ℚ → FV
  | nan : FV
  | inf : FV
  | ninf : FV
deriving DecidableEq

/-- IEEE addition on the modeled values. -/
def FV.add : FV → FV → FV
  | num a, num b => num (a + b)
  | nan, _ => nan
  | _, nan => nan
  | inf, ninf => nan
  | ninf, inf => nan
  | inf, _ => inf
  | _, inf => inf
  | ninf, _ => ninf
  | _, ninf => ninf

/-- IEEE subtraction on the modeled values. -/
def FV.sub : FV → FV → FV
  | num a, num b => num (a - b)
  | nan, _ => nan
  | _, nan => nan
  | inf, inf => nan
  | ninf, ninf => nan
  | inf, _ => inf
  | ninf, _ => ninf
  | _, inf => ninf
  | _, ninf => inf

/-- IEEE multiplication on the modeled values. -/
def FV.mul : FV → FV → FV
  | num a, num b => num (a * b)
  | nan, _ => nan
  | _, nan => nan
  | inf, inf => inf
  | inf, ninf => ninf
  | ninf, inf => ninf
  | ninf, ninf => inf
  | inf, num b => if 0 < b then inf else if b < 0 then ninf else nan
  | num a, inf => if 0 < a then inf else if a < 0 then ninf else nan
  | ninf, num b => if 0 < b then ninf else if b < 0 then inf else nan
  | num a, ninf => if 0 < a then ninf else if a < 0 then inf else nan

/-- IEEE division on the modeled values: `0/0` is NaN, `x/0` for `x > 0` is
`+inf` and for `x < 0` is `-inf` (this is exactly what numpy does when a pandas
column is divided by a column containing zeros — no exception is raised). -/
def FV.div : FV → FV → FV
  | num a, num b =>
    if b = 0 then (if a = 0 then nan else if 0 < a then inf else ninf)
    else num (a / b)
  | nan, _ => nan
  | _, nan => nan
  | inf, inf => nan
  | inf, ninf => nan
  | ninf, inf => nan
  | ninf, ninf => nan
  | inf, num b => if 0 ≤ b then inf else ninf
  | ninf, num b => if 0 ≤ b then ninf else inf
  | num _, inf => num 0
  | num _, ninf => num 0

/-- pandas Series.fillna(0) applied to one value: it replaces NaN (and only
NaN — infinities are not "na") by 0. -/
def fillna0 : FV → FV
  | FV.nan => FV.num 0
  | x => x

/-- pandas Series.sum() with the default skipna=True, over modeled values;
the sum of an empty column is 0. -/
def fvSum (l : List FV) : FV :=
  l.foldl (fun acc x => match x with | FV.nan => acc | y => FV.add acc y) (FV.num 0)

/-- Round-half-to-even to an integer, as Python's `round` does on floats
(applied to the exact rational value; binary representation error of the
float is not modeled). -/
def roundHalfEven (q : ℚ) : ℤ :=
  if q - ⌊q⌋ < 1/2 then ⌊q⌋
  else if 1/2 < q - ⌊q⌋ then ⌊q⌋ + 1
  else if ⌊q⌋ % 2 = 0 then ⌊q⌋ else ⌊q⌋ + 1

/-- Python's `round(x, 2)`, used by the generator for all currency values. -/
def round2 (q : ℚ) : ℚ := (roundHalfEven (q * 100) : ℚ) / 100

/-- A calendar date, the `.dt.date` granularity at which the dashboard's
period filter compares `data_venda`; pandas datetimes compare
chronologically, i.e. lexicographically on (year, month, day). Time of day
is generated but not used by any computation the claims are about. -/
structure Date where
  y : Int
  m : Int
  d : Int
deriving DecidableEq

/-- Chronological (lexicographic) order on dates. -/
def dle (a b : Date) : Prop :=
  a.y < b.y ∨ (a.y = b.y ∧ (a.m < b.m ∨ (a.m = b.m ∧ a.d ≤ b.d)))

instance (a b : Date) : Decidable (dle a b) := by
  unfold dle; infer_instance

/-- Binary minimum of two dates. -/
def dmin (a b : Date) : Date := if dle a b then a else b

/-- Binary maximum of two dates. -/
def dmax (a b : Date) : Date := if dle a b then b else a

/-- pandas `Series.min()` on a datetime column (the dashboard only calls it
on a nonempty frame; the `[]` case is an arbitrary placeholder). -/
def dminList : List Date → Date
  | [] => ⟨0, 0, 0⟩
  | d :: ds => ds.foldl dmin d

/-- pandas `Series.max()` on a datetime column. -/
def dmaxList : List Date → Date
  | [] => ⟨0, 0, 0⟩
  | d :: ds => ds.foldl dmax d

/-- A row of fornecedores.csv. -/
structure Fornecedor where
  id_fornecedor : Nat
  nome_fornecedor : String
  contato_fornecedor : String
  email_fornecedor : String
  telefone_fornecedor : String
deriving DecidableEq

/-- A row of produtos.csv. -/
structure Produto where
  id_produto : Nat
  nome_produto : String
  categoria_produto : String
  preco_custo : ℚ
  preco_venda_unitario : ℚ
  id_fornecedor : Nat
deriving DecidableEq

/-- A row of clientes.csv. -/
structure Cliente where
  id_cliente : Nat
  nome_cliente : String
  email_cliente : String
  telefone_cliente : String
  endereco_cliente : String
  cidade_cliente : String
  estado_cliente : String
  pais_cliente : String
  regiao_cliente : String
  data_cadastro : Date
deriving DecidableEq

/-- A row of vendedores.csv. -/
structure Vendedor where
  id_vendedor : Nat
  nome_vendedor : String
  email_vendedor : String
  matricula_vendedor : String
  equipe_vendas : String
deriving DecidableEq

/-- A row of vendas.csv. -/
structure Venda where
  id_venda : Nat
  id_produto : Nat
  id_cliente : Nat
  id_vendedor : Nat
  data_venda : Date
  quantidade_vendida : Nat
  valor_total_venda : ℚ
  metodo_pagamento : String
deriving DecidableEq

/-- Oracle for the pseudo-random draws (`random.choice`, `random.uniform`,
`random.randint`) and fake-data calls (`fake.name()`, ...) made by the
generator script; each field gives the value drawn at loop index `i`.
Quantifying the theorems over this oracle covers every possible run. -/
structure Rng where
  company : Nat → String
  contato : Nat → String
  emailForn : Nat → String
  foneForn : Nat → String
  nomeProd : Nat → String
  catPick : Nat → Nat
  custoU : Nat → ℚ
  markupU : Nat → ℚ
  fornPick : Nat → Nat
  nomeCli : Nat → String
  emailCli : Nat → String
  foneCli : Nat → String
  enderCli : Nat → String
  cidadeCli : Nat → String
  estadoCli : Nat → String
  regiaoPick : Nat → Nat
  cadastroU : Nat → Date
  nomeVend : Nat → String
  emailVend : Nat → String
  matriculaU : Nat → String
  equipePick : Nat → Nat
  prodPick : Nat → Nat
  qtyU : Nat → Nat
  dataU : Nat → Date
  cliPick : Nat → Nat
  vendPick : Nat → Nat
  pagPick : Nat → Nat

/-- `random.choice(l)`: an element of `l` at a uniformly drawn index, the
index being supplied by the oracle (reduced mod the length so that any oracle
value denotes a valid draw); `d` is a dummy default for the impossible empty
case. -/
def choiceL (l : List α) (d : α) (k : Nat) : α := l.getD (k % l.length) d

def NUM_FORNECEDORES : Nat := 10
def NUM_PRODUTOS : Nat := 50
def NUM_CLIENTES : Nat := 200
def NUM_VENDEDORES : Nat := 20
def NUM_VENDAS : Nat := 1000

def categorias_produto : List String :=
  ["Eletrônicos", "Livros", "Roupas", "Alimentos", "Móveis", "Brinquedos", "Esportes"]

def regioes_cliente : List String :=
  ["Norte", "Nordeste", "Centro-Oeste", "Sudeste", "Sul"]

def equipes_vendas : List String :=
  ["Equipe Alpha", "Equipe Beta", "Equipe Gamma", "Equipe Delta"]

def metodos_pagamento : List String :=
  ["Cartão de Crédito", "Boleto Bancário", "PIX", "Débito Online", "Transferência Bancária"]

/-- The fornecedores generation loop (`for i in range(1, NUM_FORNECEDORES+1)`). -/
def fornecedores_data (g : Rng) : List Fornecedor :=
  (List.range NUM_FORNECEDORES).map (fun j =>
    { id_fornecedor := j + 1
      nome_fornecedor := g.company (j + 1)
      contato_fornecedor := g.contato (j + 1)
      email_fornecedor := g.emailForn (j + 1)
      telefone_fornecedor := g.foneForn (j + 1) })

/-- `fornecedores_df['id_fornecedor'].tolist()`. -/
def fornecedor_ids (g : Rng) : List Nat :=
  (fornecedores_data g).map Fornecedor.id_fornecedor

/-- The produtos generation loop: cost drawn uniformly then rounded to cents,
sale price = cost times a uniform markup, rounded to cents; the supplier id is
a uniform choice among the existing supplier ids. -/
def produtos_data (g : Rng) : List Produto :=
  (List.range NUM_PRODUTOS).map (fun j =>
    let custo := round2 (g.custoU (j + 1))
    { id_produto := j + 1
      nome_produto := g.nomeProd (j + 1)
      categoria_produto := choiceL categorias_produto "" (g.catPick (j + 1))
      preco_custo := custo
      preco_venda_unitario := round2 (custo * g.markupU (j + 1))
      id_fornecedor := choiceL (fornecedor_ids g) 0 (g.fornPick (j + 1)) })

/-- The clientes generation loop. -/
def clientes_data (g : Rng) : List Cliente :=
  (List.range NUM_CLIENTES).map (fun j =>
    { id_cliente := j + 1
      nome_cliente := g.nomeCli (j + 1)
      email_cliente := g.emailCli (j + 1)
      telefone_cliente := g.foneCli (j + 1)
      endereco_cliente := g.enderCli (j + 1)
      cidade_cliente := g.cidadeCli (j + 1)
      estado_cliente := g.estadoCli (j + 1)
      pais_cliente := "Brasil"
      regiao_cliente := choiceL regioes_cliente "" (g.regiaoPick (j + 1))
      data_cadastro := g.cadastroU (j + 1) })

/-- The vendedores generation loop. -/
def vendedores_data (g : Rng) : List Vendedor :=
  (List.range NUM_VENDEDORES).map (fun j =>
    { id_vendedor := j + 1
      nome_vendedor := g.nomeVend (j + 1)
      email_vendedor := g.emailVend (j + 1)
      matricula_vendedor := g.matriculaU (j + 1)
      equipe_vendas := choiceL equipes_vendas "" (g.equipePick (j + 1)) })

/-- `produtos_df['id_produto'].tolist()`. -/
def produto_ids (g : Rng) : List Nat :=
  (produtos_data g).map Produto.id_produto

/-- `clientes_df['id_cliente'].tolist()`. -/
def cliente_ids (g : Rng) : List Nat :=
  (clientes_data g).map Cliente.id_cliente

/-- `vendedores_df['id_vendedor'].tolist()`. -/
def vendedor_ids (g : Rng) : List Nat :=
  (vendedores_data g).map Vendedor.id_vendedor

/-- `produtos_df.set_index('id_produto')['preco_venda_unitario'].to_dict()`:
the price-lookup dictionary, as an association list (product ids are distinct,
so first-match lookup agrees with the Python dict). -/
def precos_produtos (g : Rng) : List (Nat × ℚ) :=
  (produtos_data g).map (fun p => (p.id_produto, p.preco_venda_unitario))

/-- The vendas generation loop: `random.randint(1, 10)` is modeled as
`qtyU i % 10 + 1`; `precos_produtos[id_prod]` is the dictionary lookup (the
key is always present, so the `getD 0` default is never taken). -/
def vendas_data (g : Rng) : List Venda :=
  (List.range NUM_VENDAS).map (fun j =>
    let id_prod := choiceL (produto_ids g) 0 (g.prodPick (j + 1))
    let quantidade := g.qtyU (j + 1) % 10 + 1
    let preco_unitario_prod := ((precos_produtos g).lookup id_prod).getD 0
    { id_venda := j + 1
      id_produto := id_prod
      id_cliente := choiceL (cliente_ids g) 0 (g.cliPick (j + 1))
      id_vendedor := choiceL (vendedor_ids g) 0 (g.vendPick (j + 1))
      data_venda := g.dataU (j + 1)
      quantidade_vendida := quantidade
      valor_total_venda := round2 (preco_unitario_prod * quantidade)
      metodo_pagamento := choiceL metodos_pagamento "" (g.pagPick (j + 1)) })

/-- The five CSV files as found (or not) on disk by the dashboard;
`none` models a missing file (pandas raises FileNotFoundError). Parsing —
including the `pd.to_datetime` conversions — is folded into the typed row
representation. -/
structure Files where
  produtos : Option (List Produto)
  clientes : Option (List Cliente)
  vendedores : Option (List Vendedor)
  vendas : Option (List Venda)
  fornecedores : Option (List Fornecedor)

/-- The dashboard's `load_data()`: reads produtos.csv, clientes.csv,
vendedores.csv and vendas.csv (the fornecedores.csv read is commented out in
the source), and returns the four frames, or `none` for the
FileNotFoundError branch that returns `None, None, None, None`. -/
def load_data (fs : Files) : Option (List Produto × List Cliente × List Vendedor × List Venda) :=
  match fs.produtos, fs.clientes, fs.vendedores, fs.vendas with
  | some p, some c, some s, some v => some (p, c, s, v)
  | _, _, _, _ => none

/-- One row of the denormalized view `df_merged`: the sale's own columns plus
the attribute columns brought in by the three left joins; `none` in a joined
component models the all-NaN attribute columns of an unmatched row. -/
structure MergedRow where
  venda : Venda
  produto : Option Produto
  cliente : Option Cliente
  vendedor : Option Vendedor
deriving DecidableEq

/-- `pd.merge(left, right, on=key, how='left')`: every left row appears once
per matching right row (in right-table order), and a left row with no match
appears exactly once with null right-columns — it is not dropped. -/
def mergeStep (left : List α) (right : List β) (kl : α → Nat) (kr : β → Nat)
    (comb : α → Option β → γ) : List γ :=
  left.flatMap (fun a =>
    match right.filter (fun b => kr b == kl a) with
    | [] => [comb a none]
    | bs => bs.map (fun b => comb a (some b)))

/-- The denormalized record set: Sale left-joined with Product, then
Customer, then Seller, on their respective keys. -/
def df_merged (produtos : List Produto) (clientes : List Cliente)
    (vendedores : List Vendedor) (vendas : List Venda) : List MergedRow :=
  mergeStep
    (mergeStep
      (mergeStep vendas produtos (fun v => v.id_produto) (fun p => p.id_produto)
        (fun v p => ({ venda := v, produto := p, cliente := none, vendedor := none } : MergedRow)))
      clientes (fun r => r.venda.id_cliente) (fun c => c.id_cliente)
      (fun (r : MergedRow) c => { r with cliente := c }))
    vendedores (fun r => r.venda.id_vendedor) (fun s => s.id_vendedor)
    (fun (r : MergedRow) s => { r with vendedor := s })

/-- A numeric column value from an attribute brought in by a left join:
NaN when the row had no join partner. -/
def optQ : Option ℚ → FV
  | some q => FV.num q
  | none => FV.nan

/-- Derived column `lucro_venda = (preco_venda_unitario - preco_custo) *
quantidade_vendida` (NaN on rows whose product join did not match). -/
def lucro_venda (r : MergedRow) : FV :=
  FV.mul
    (FV.sub (optQ (r.produto.map Produto.preco_venda_unitario))
            (optQ (r.produto.map Produto.preco_custo)))
    (FV.num r.venda.quantidade_vendida)

/-- Derived column `margem_lucro_percentual = (lucro_venda /
valor_total_venda) * 100`, followed by `.fillna(0)` exactly as in the source. -/
def margem_lucro_percentual (r : MergedRow) : FV :=
  fillna0 (FV.mul (FV.div (lucro_venda r) (FV.num r.venda.valor_total_venda)) (FV.num 100))

/-- The `nome_produto` column of the denormalized view (null when the
product join did not match). -/
def nome_produto (r : MergedRow) : Option String := r.produto.map Produto.nome_produto

/-- The `categoria_produto` column of the denormalized view. -/
def categoria_produto (r : MergedRow) : Option String := r.produto.map Produto.categoria_produto

/-- The `nome_cliente` column of the denormalized view. -/
def nome_cliente (r : MergedRow) : Option String := r.cliente.map Cliente.nome_cliente

/-- The `regiao_cliente` column of the denormalized view. -/
def regiao_cliente (r : MergedRow) : Option String := r.cliente.map Cliente.regiao_cliente

/-- The `nome_vendedor` column of the denormalized view. -/
def nome_vendedor (r : MergedRow) : Option String := r.vendedor.map Vendedor.nome_vendedor

/-- pandas `Series.unique().tolist()`: the distinct values of a column in
first-encountered order. -/
def uniq [DecidableEq α] (l : List α) : List α :=
  l.foldl (fun acc a => if a ∈ acc then acc else acc ++ [a]) []

/-- Boolean order on strings used to model Python's `sorted`. -/
def strLe (a b : String) : Bool := decide (a ≤ b)

/-- Order on nullable column values (null first), so that `sorted` can be
modeled as a total sort on the option-valued column. -/
def oleStr : Option String → Option String → Bool
  | none, _ => true
  | some _, none => false
  | some x, some y => strLe x y

/-- `sorted(df_merged[col].unique().tolist())`: the option list a dimension's
multiselect offers (without the prepended sentinel). -/
def allVals (f : MergedRow → Option String) (df : List MergedRow) : List (Option String) :=
  (uniq (df.map f)).mergeSort oleStr

/-- The sentinel resolution `if 'Todos' in selected: selected = all_vals`:
choosing the select-all sentinel means the whole option list. -/
def resolveSel (sentinel : α) [DecidableEq α] (chosen allv : List α) : List α :=
  if sentinel ∈ chosen then allv else chosen

/-- `df_filtered`: the conjunction of the period predicate (inclusive, at
date granularity) and the five set-membership predicates (`Series.isin`);
like pandas `isin`, a null column value matches when null is in the list. -/
def df_filtered (df : List MergedRow) (start_date end_date : Date)
    (ps cs ns rs ss : List (Option String)) : List MergedRow :=
  df.filter (fun r =>
    decide (dle start_date r.venda.data_venda) &&
    decide (dle r.venda.data_venda end_date) &&
    ps.contains (nome_produto r) &&
    cs.contains (categoria_produto r) &&
    ns.contains (nome_cliente r) &&
    rs.contains (regiao_cliente r) &&
    ss.contains (nome_vendedor r))

/-- The KPI bundle of the "Visão Geral" tab: sum of `valor_total_venda`, sum
of `lucro_venda`, `id_venda.nunique()`, and the average ticket with its
explicit division-by-zero guard (`if num_transacoes > 0 else 0`). -/
def kpis (df : List MergedRow) : ℚ × FV × Nat × ℚ :=
  let total_vendas_valor := (df.map (fun r => r.venda.valor_total_venda)).sum
  let total_lucro_valor := fvSum (df.map lucro_venda)
  let num_transacoes := (uniq (df.map (fun r => r.venda.id_venda))).length
  (total_vendas_valor, total_lucro_valor, num_transacoes,
    if 0 < num_transacoes then total_vendas_valor / (num_transacoes : ℚ) else 0)

/-- The sum of a metric column over the rows of one group. -/
def groupSum (df : List MergedRow) (key : MergedRow → Option String)
    (metric : MergedRow → ℚ) (k : String) : ℚ :=
  ((df.filter (fun r => key r == some k)).map metric).sum

/-- pandas `df.groupby(key)[metric].sum()` with the default `sort=True` and
`dropna=True`: one entry per distinct non-null key, sorted ascending by key. -/
def groupbySum (df : List MergedRow) (key : MergedRow → Option String)
    (metric : MergedRow → ℚ) : List (String × ℚ) :=
  ((uniq (df.filterMap key)).mergeSort strLe).map (fun k => (k, groupSum df key metric k))

/-- pandas `Series.nlargest(n)` with the default `keep='first'`: a stable
descending sort by value, keeping the first `n` entries (ties broken by
position in the series). -/
def nlargest (n : Nat) (s : List (String × ℚ)) : List (String × ℚ) :=
  (s.mergeSort (fun a b => decide (b.2 ≤ a.2))).take n

/-- The metric column `valor_total_venda`. -/
def valorCol (r : MergedRow) : ℚ := r.venda.valor_total_venda

/-- The metric column `quantidade_vendida`. -/
def qtyCol (r : MergedRow) : ℚ := (r.venda.quantidade_vendida : ℚ)

/-- `df_top_vendedores`: group by seller name, sum `valor_total_venda`, take
the n largest. -/
def df_top_vendedores (df : List MergedRow) (n : Nat) : List (String × ℚ) :=
  nlargest n (groupbySum df nome_vendedor valorCol)

/-- `df_top_produtos`: group by product name and sum the metric selected by
the radio widget (`true` = 'Valor de Venda', `false` = 'Quantidade Vendida'). -/
def df_top_produtos (df : List MergedRow) (porValor : Bool) (n : Nat) : List (String × ℚ) :=
  if porValor then nlargest n (groupbySum df nome_produto valorCol)
  else nlargest n (groupbySum df nome_produto qtyCol)

/-- `df_top_clientes`: group by customer name, sum `valor_total_venda`, take
the n largest. -/
def df_top_clientes (df : List MergedRow) (n : Nat) : List (String × ℚ) :=
  nlargest n (groupbySum df nome_cliente valorCol)

/-- Modelled from the spec's words for comparison (claim C6): a Top-N ranking
whose grouped series is kept in first-encountered order, so that `nlargest`
ties are broken by first-encountered grouping order. -/
def topN_firstEncountered (df : List MergedRow) (key : MergedRow → Option String)
    (metric : MergedRow → ℚ) (n : Nat) : List (String × ℚ) :=
  nlargest n ((uniq (df.filterMap key)).map (fun k => (k, groupSum df key metric k)))

/-! Helper lemmas. -/

theorem foldl_uniq_mem [DecidableEq α] (l : List α) (acc : List α) (x : α) :
    (x ∈ l.foldl (fun ac a => if a ∈ ac then ac else ac ++ [a]) acc) ↔ x ∈ acc ∨ x ∈ l := by
  induction l generalizing acc with
  | nil => simp
  | cons a t ih =>
    by_cases h : a ∈ acc
    · simp only [List.foldl_cons, if_pos h, ih, List.mem_cons]
      constructor
      · rintro (hx | hx)
        · exact Or.inl hx
        · exact Or.inr (Or.inr hx)
      · rintro (hx | rfl | hx)
        · exact Or.inl hx
        · exact Or.inl h
        · exact Or.inr hx
    · simp only [List.foldl_cons, if_neg h, ih, List.mem_append, List.mem_singleton,
        List.mem_cons]
      tauto

theorem mem_uniq [DecidableEq α] (l : List α) (x : α) : x ∈ uniq l ↔ x ∈ l := by
  simp [uniq, foldl_uniq_mem]

theorem foldl_uniq_nodup [DecidableEq α] (l : List α) (acc : List α) (h : acc.Nodup) :
    (l.foldl (fun ac a => if a ∈ ac then ac else ac ++ [a]) acc).Nodup := by
  induction l generalizing acc with
  | nil => simpa using h
  | cons a t ih =>
    by_cases ha : a ∈ acc
    · simpa only [List.foldl_cons, if_pos ha] using ih acc h
    · simp only [List.foldl_cons, if_neg ha]
      exact ih _ (by simp [List.nodup_append, h, ha])

theorem nodup_uniq [DecidableEq α] (l : List α) : (uniq l).Nodup :=
  foldl_uniq_nodup l [] List.nodup_nil

theorem dle_refl (a : Date) : dle a a := by unfold dle; omega

theorem dle_trans {a b c : Date} (h1 : dle a b) (h2 : dle b c) : dle a c := by
  unfold dle at h1 h2 ⊢; omega

theorem dle_total (a b : Date) : dle a b ∨ dle b a := by unfold dle; omega

theorem dmin_le_left (a b : Date) : dle (dmin a b) a := by
  unfold dmin; split
  · exact dle_refl a
  · next h =>
      rcases dle_total a b with h1 | h1
      · exact absurd h1 h
      · exact h1

theorem dmin_le_right (a b : Date) : dle (dmin a b) b := by
  unfold dmin; split
  · next h => exact h
  · exact dle_refl b

theorem le_dmax_left (a b : Date) : dle a (dmax a b) := by
  unfold dmax; split
  · next h => exact h
  · exact dle_refl a

theorem le_dmax_right (a b : Date) : dle b (dmax a b) := by
  unfold dmax; split
  · exact dle_refl b
  · next h =>
      rcases dle_total a b with h1 | h1
      · exact absurd h1 h
      · exact h1

theorem foldl_dmin_le (l : List Date) (acc : Date) :
    dle (l.foldl dmin acc) acc ∧ ∀ x ∈ l, dle (l.foldl dmin acc) x := by
  induction l generalizing acc with
  | nil => exact ⟨dle_refl acc, by simp⟩
  | cons a t ih =>
    obtain ⟨h1, h2⟩ := ih (dmin acc a)
    refine ⟨dle_trans h1 (dmin_le_left acc a), ?_⟩
    intro x hx
    rcases List.mem_cons.mp hx with rfl | hx'
    · exact dle_trans h1 (dmin_le_right acc x)
    · exact h2 x hx'

theorem foldl_dmax_ge (l : List Date) (acc : Date) :
    dle acc (l.foldl dmax acc) ∧ ∀ x ∈ l, dle x (l.foldl dmax acc) := by
  induction l generalizing acc with
  | nil => exact ⟨dle_refl acc, by simp⟩
  | cons a t ih =>
    obtain ⟨h1, h2⟩ := ih (dmax acc a)
    refine ⟨dle_trans (le_dmax_left acc a) h1, ?_⟩
    intro x hx
    rcases List.mem_cons.mp hx with rfl | hx'
    · exact dle_trans (le_dmax_right acc x) h1
    · exact h2 x hx'

theorem dminList_le (l : List Date) (x : Date) (hx : x ∈ l) : dle (dminList l) x := by
  match l with
  | [] => simp at hx
  | d :: ds =>
    rcases List.mem_cons.mp hx with rfl | hx'
    · exact (foldl_dmin_le ds x).1
    · exact (foldl_dmin_le ds d).2 x hx'

theorem le_dmaxList (l : List Date) (x : Date) (hx : x ∈ l) : dle x (dmaxList l) := by
  match l with
  | [] => simp at hx
  | d :: ds =>
    rcases List.mem_cons.mp hx with rfl | hx'
    · exact (foldl_dmax_ge ds x).1
    · exact (foldl_dmax_ge ds d).2 x hx'

theorem choiceL_mem (l : List α) (d : α) (k : Nat) (h : l ≠ []) : choiceL l d k ∈ l := by
  unfold choiceL
  have hlen : 0 < l.length := List.length_pos.mpr h
  have hlt : k % l.length < l.length := Nat.mod_lt _ hlen
  rw [List.getD_eq_getElem?_getD, List.getElem?_eq_getElem hlt]
  exact List.getElem_mem hlt

theorem lookup_of_nodup_keys (l : List (Nat × β)) (h : (l.map Prod.fst).Nodup)
    (k : Nat) (v : β) (hm : (k, v) ∈ l) : l.lookup k = some v := by
  induction l with
  | nil => simp at hm
  | cons p t ih =>
    simp only [List.map_cons, List.nodup_cons] at h
    rcases List.mem_cons.mp hm with rfl | hm'
    · simp [List.lookup_cons]
    · have hk : (k == p.1) = false := by
        apply beq_false_of_ne
        intro hkp
        exact h.1 (hkp ▸ List.mem_map_of_mem Prod.fst hm')
      rw [List.lookup_cons, hk]
      exact ih h.2 hm'

theorem map_mk_range_eq_range' (n : Nat) (f : Nat → α) (g : α → Nat)
    (h : ∀ j, g (f j) = j + 1) : ((List.range n).map f).map g = List.range' 1 n := by
  rw [List.map_map, List.range'_eq_map_range]
  apply List.map_congr_left
  intro j _
  simp [h j, Nat.add_comm]

theorem filter_length_le_one (right : List β) (kr : β → Nat) (c : Nat)
    (h : (right.map kr).Nodup) : (right.filter (fun b => kr b == c)).length ≤ 1 := by
  induction right with
  | nil => simp
  | cons b t ih =>
    simp only [List.map_cons, List.nodup_cons] at h
    by_cases hb : (kr b == c) = true
    · have ht : List.filter (fun x => kr x == c) t = [] := by
        apply List.filter_eq_nil_iff.mpr
        intro x hx
        simp only [beq_iff_eq]
        intro hc
        have hbc : kr b = c := by simpa using hb
        exact h.1 (by rw [hbc, ← hc]; exact List.mem_map_of_mem kr hx)
      simp [List.filter_cons, hb, ht]
    · simp [List.filter_cons, hb]
      simpa using ih h.2

theorem mergeRow_eq_find (right : List β) (kr : β → Nat) (c : Nat)
    (comb : Option β → γ) (h : (right.filter (fun b => kr b == c)).length ≤ 1) :
    (match right.filter (fun b => kr b == c) with
     | [] => [comb none]
     | bs => bs.map (fun b => comb (some b))) =
      [comb (right.find? (fun b => kr b == c))] := by
  induction right with
  | nil => simp
  | cons b t ih =>
    by_cases hb : (kr b == c) = true
    · have hfil : List.filter (fun x => kr x == c) (b :: t) =
          b :: List.filter (fun x => kr x == c) t := by
        simp [List.filter_cons, hb]
      rw [hfil] at h ⊢
      have ht : List.filter (fun x => kr x == c) t = [] := by
        have hlen : (List.filter (fun x => kr x == c) t).length = 0 := by
          simp only [List.length_cons] at h; omega
        exact List.length_eq_zero.mp hlen
      rw [ht]
      simp [List.find?, hb]
    · have hfil : List.filter (fun x => kr x == c) (b :: t) =
          List.filter (fun x => kr x == c) t := by
        simp [List.filter_cons, hb]
      rw [hfil] at h ⊢
      rw [ih h]
      simp [List.find?, hb]

theorem mergeStep_eq_map (left : List α) (right : List β)
    (kl : α → Nat) (kr : β → Nat) (comb : α → Option β → γ)
    (h : (right.map kr).Nodup) :
    mergeStep left right kl kr comb =
      left.map (fun a => comb a (right.find? (fun b => kr b == kl a))) := by
  unfold mergeStep
  induction left with
  | nil => simp
  | cons a t ih =>
    simp only [List.flatMap_cons, List.map_cons]
    rw [mergeRow_eq_find right kr (kl a) (comb a) (filter_length_le_one right kr (kl a) h)]
    rw [ih]
    simp

/-- Under unique parent keys, the triple left join produces exactly one output
row per Sale row: the sale's columns together with the (optional) unique
matching parent rows. -/
theorem df_merged_eq_map (P : List Produto) (C : List Cliente) (S : List Vendedor)
    (V : List Venda)
    (hP : (P.map Produto.id_produto).Nodup) (hC : (C.map Cliente.id_cliente).Nodup)
    (hS : (S.map Vendedor.id_vendedor).Nodup) :
    df_merged P C S V = V.map (fun v =>
      { venda := v
        produto := P.find? (fun p => p.id_produto == v.id_produto)
        cliente := C.find? (fun c => c.id_cliente == v.id_cliente)
        vendedor := S.find? (fun s => s.id_vendedor == v.id_vendedor) }) := by
  unfold df_merged
  rw [mergeStep_eq_map _ _ _ _ _ hP, mergeStep_eq_map _ _ _ _ _ hC,
    mergeStep_eq_map _ _ _ _ _ hS]
  simp only [List.map_map]
  rfl

theorem fornecedor_ids_eq (g : Rng) :
    fornecedor_ids g = List.range' 1 NUM_FORNECEDORES :=
  map_mk_range_eq_range' NUM_FORNECEDORES _ _ (fun _ => rfl)

theorem produto_ids_eq (g : Rng) : produto_ids g = List.range' 1 NUM_PRODUTOS :=
  map_mk_range_eq_range' NUM_PRODUTOS _ _ (fun _ => rfl)

theorem cliente_ids_eq (g : Rng) : cliente_ids g = List.range' 1 NUM_CLIENTES :=
  map_mk_range_eq_range' NUM_CLIENTES _ _ (fun _ => rfl)

theorem vendedor_ids_eq (g : Rng) : vendedor_ids g = List.range' 1 NUM_VENDEDORES :=
  map_mk_range_eq_range' NUM_VENDEDORES _ _ (fun _ => rfl)

theorem venda_ids_eq (g : Rng) :
    (vendas_data g).map Venda.id_venda = List.range' 1 NUM_VENDAS :=
  map_mk_range_eq_range' NUM_VENDAS _ _ (fun _ => rfl)

theorem fornecedor_ids_ne_nil (g : Rng) : fornecedor_ids g ≠ [] := by
  apply List.ne_nil_of_length_pos
  rw [fornecedor_ids_eq]
  simp [List.length_range', NUM_FORNECEDORES]

theorem produto_ids_ne_nil (g : Rng) : produto_ids g ≠ [] := by
  apply List.ne_nil_of_length_pos
  rw [produto_ids_eq]
  simp [List.length_range', NUM_PRODUTOS]

theorem cliente_ids_ne_nil (g : Rng) : cliente_ids g ≠ [] := by
  apply List.ne_nil_of_length_pos
  rw [cliente_ids_eq]
  simp [List.length_range', NUM_CLIENTES]

theorem vendedor_ids_ne_nil (g : Rng) : vendedor_ids g ≠ [] := by
  apply List.ne_nil_of_length_pos
  rw [vendedor_ids_eq]
  simp [List.length_range', NUM_VENDEDORES]

theorem pair_sublist_of_mem {p q : α} {s : List α} (hp : p ∈ s) (hq : q ∈ s) (hne : p ≠ q) :
    [p, q].Sublist s ∨ [q, p].Sublist s := by
  induction s with
  | nil => simp at hp
  | cons a t ih =>
    rcases List.mem_cons.mp hp with rfl | hp'
    · rcases List.mem_cons.mp hq with h1 | hq'
      · exact absurd h1.symm hne
      · exact Or.inl (List.Sublist.cons₂ p (List.singleton_sublist.mpr hq'))
    · rcases List.mem_cons.mp hq with rfl | hq'
      · exact Or.inr (List.Sublist.cons₂ q (List.singleton_sublist.mpr hp'))
      · rcases ih hp' hq' with h | h
        · exact Or.inl (List.Sublist.cons a h)
        · exact Or.inr (List.Sublist.cons a h)

theorem pair_sublist_antisymm {p q : α} (m : List α) (hnd : m.Nodup)
    (h1 : [p, q].Sublist m) (h2 : [q, p].Sublist m) : p = q := by
  induction m with
  | nil => cases h1
  | cons a t ih =>
    cases h1 with
    | cons _ h1' =>
      cases h2 with
      | cons _ h2' => exact ih (List.nodup_cons.mp hnd).2 h1' h2'
      | cons₂ _ h2' =>
        exact absurd (h1'.subset (by simp)) (List.nodup_cons.mp hnd).1
    | cons₂ _ h1' =>
      cases h2 with
      | cons _ h2' =>
        exact absurd (h2'.subset (by simp)) (List.nodup_cons.mp hnd).1
      | cons₂ _ h2' => rfl

theorem strLe_trans (a b c : String) : strLe a b → strLe b c → strLe a c := by
  simp only [strLe, decide_eq_true_eq]
  exact le_trans

theorem strLe_total (a b : String) : strLe a b || strLe b a := by
  simp only [strLe, Bool.or_eq_true, decide_eq_true_eq]
  exact le_total a b

theorem vle_trans (a b c : String × ℚ) :
    (fun a b => decide ((b : String × ℚ).2 ≤ (a : String × ℚ).2)) a b →
    (fun a b => decide ((b : String × ℚ).2 ≤ (a : String × ℚ).2)) b c →
    (fun a b => decide ((b : String × ℚ).2 ≤ (a : String × ℚ).2)) a c := by
  simp only [decide_eq_true_eq]
  exact fun h1 h2 => le_trans h2 h1

theorem vle_total (a b : String × ℚ) :
    ((fun a b => decide ((b : String × ℚ).2 ≤ (a : String × ℚ).2)) a b) ||
    ((fun a b => decide ((b : String × ℚ).2 ≤ (a : String × ℚ).2)) b a) := by
  simp only [Bool.or_eq_true, decide_eq_true_eq]
  exact le_total b.2 a.2

theorem groupbySum_shape (df : List MergedRow) (key : MergedRow → Option String)
    (metric : MergedRow → ℚ) :
    ∀ p ∈ groupbySum df key metric,
      p.1 ∈ df.filterMap key ∧ p.2 = groupSum df key metric p.1 := by
  intro p hp
  unfold groupbySum at hp
  rcases List.mem_map.mp hp with ⟨k, hk, rfl⟩
  exact ⟨(mem_uniq _ _).mp (List.mem_mergeSort.mp hk), rfl⟩

theorem groupbySum_key_pairwise (df : List MergedRow) (key : MergedRow → Option String)
    (metric : MergedRow → ℚ) :
    (groupbySum df key metric).Pairwise (fun p q => p.1 < q.1) := by
  unfold groupbySum
  rw [List.pairwise_map]
  have hsorted : ((uniq (df.filterMap key)).mergeSort strLe).Pairwise
      (fun a b => strLe a b = true) :=
    List.sorted_mergeSort strLe_trans strLe_total _
  have hnd : ((uniq (df.filterMap key)).mergeSort strLe).Nodup :=
    (List.mergeSort_perm _ strLe).nodup_iff.mpr (nodup_uniq _)
  have hcomb := hsorted.and hnd
  apply hcomb.imp
  intro a b hab
  have hle : a ≤ b := by simpa [strLe] using hab.1
  exact lt_of_le_of_ne hle hab.2

theorem groupbySum_nodup (df : List MergedRow) (key : MergedRow → Option String)
    (metric : MergedRow → ℚ) : (groupbySum df key metric).Nodup :=
  (groupbySum_key_pairwise df key metric).imp
    (fun hlt heq => absurd (heq ▸ hlt) (lt_irrefl _))

/-- Correctness of one Top-N ranking over a filtered set: every returned pair
is an actually occurring group key together with the exact sum of the metric
over that group; no group left out has a sum exceeding any returned one; and
the output is in descending metric order, with ties in ascending key order. -/
def TopNOk (out : List (String × ℚ)) (df : List MergedRow)
    (key : MergedRow → Option String) (metric : MergedRow → ℚ) : Prop :=
  (∀ p ∈ out, p.1 ∈ df.filterMap key ∧ p.2 = groupSum df key metric p.1) ∧
  (∀ q ∈ groupbySum df key metric, q ∉ out → ∀ p ∈ out, q.2 ≤ p.2) ∧
  out.Pairwise (fun p q => q.2 ≤ p.2 ∧ (p.2 = q.2 → p.1 < q.1))

theorem topNOk_nlargest (df : List MergedRow) (key : MergedRow → Option String)
    (metric : MergedRow → ℚ) (n : Nat) :
    TopNOk (nlargest n (groupbySum df key metric)) df key metric := by
  have hperm : List.Perm ((groupbySum df key metric).mergeSort (fun a b => decide (b.2 ≤ a.2)))
      (groupbySum df key metric) := List.mergeSort_perm _ _
  have hsorted : ((groupbySum df key metric).mergeSort
      (fun a b => decide (b.2 ≤ a.2))).Pairwise
      (fun a b => decide (b.2 ≤ a.2) = true) :=
    List.sorted_mergeSort vle_trans vle_total _
  have hnd_m : ((groupbySum df key metric).mergeSort
      (fun a b => decide (b.2 ≤ a.2))).Nodup :=
    hperm.nodup_iff.mpr (groupbySum_nodup df key metric)
  refine ⟨?_, ?_, ?_⟩
  · intro p hp
    have hpm : p ∈ (groupbySum df key metric).mergeSort (fun a b => decide (b.2 ≤ a.2)) :=
      (List.take_sublist n _).subset hp
    exact groupbySum_shape df key metric p (hperm.subset hpm)
  · intro q hq hqo p hp
    have hqm : q ∈ (groupbySum df key metric).mergeSort (fun a b => decide (b.2 ≤ a.2)) :=
      hperm.mem_iff.mpr hq
    rw [← List.take_append_drop n
      ((groupbySum df key metric).mergeSort (fun a b => decide (b.2 ≤ a.2)))] at hqm
    have hq_drop : q ∈ ((groupbySum df key metric).mergeSort
        (fun a b => decide (b.2 ≤ a.2))).drop n := by
      rcases List.mem_append.mp hqm with h | h
      · exact absurd h hqo
      · exact h
    have h2 : (((groupbySum df key metric).mergeSort
        (fun a b => decide (b.2 ≤ a.2))).take n ++
        ((groupbySum df key metric).mergeSort
        (fun a b => decide (b.2 ≤ a.2))).drop n).Pairwise
        (fun a b => decide (b.2 ≤ a.2) = true) := by
      rw [List.take_append_drop]
      exact hsorted
    have := (List.pairwise_append.mp h2).2.2 p hp q hq_drop
    simpa using this
  · have hpw : ((groupbySum df key metric).mergeSort
        (fun a b => decide (b.2 ≤ a.2))).Pairwise
        (fun p q => q.2 ≤ p.2 ∧ (p.2 = q.2 → p.1 < q.1)) := by
      rw [List.pairwise_iff_forall_sublist]
      intro p q hsub
      have hle : q.2 ≤ p.2 := by
        simpa using List.pairwise_iff_forall_sublist.mp hsorted hsub
      refine ⟨hle, fun heq => ?_⟩
      have hne : p ≠ q := List.pairwise_iff_forall_sublist.mp hnd_m hsub
      have hpmem : p ∈ groupbySum df key metric := hperm.subset (hsub.subset (by simp))
      have hqmem : q ∈ groupbySum df key metric := hperm.subset (hsub.subset (by simp))
      rcases pair_sublist_of_mem hpmem hqmem hne with hps | hqs
      · exact List.pairwise_iff_forall_sublist.mp
          (groupbySum_key_pairwise df key metric) hps
      · have hvle : (fun a b => decide ((b : String × ℚ).2 ≤ (a : String × ℚ).2)) q p = true := by
          simp [heq]
        have hqpm : [q, p].Sublist ((groupbySum df key metric).mergeSort
            (fun a b => decide (b.2 ≤ a.2))) :=
          List.pair_sublist_mergeSort vle_trans vle_total hvle hqs
        exact absurd (pair_sublist_antisymm _ hnd_m hsub hqpm) hne
    exact List.Pairwise.sublist (List.take_sublist n _) hpw

theorem mem_allVals (f : MergedRow → Option String) (df : List MergedRow) (r : MergedRow)
    (hr : r ∈ df) : f r ∈ allVals f df :=
  List.mem_mergeSort.mpr ((mem_uniq _ _).mpr (List.mem_map_of_mem f hr))

/-! Concrete fixtures used by witnesses and counterexamples. -/

/-- Oracle whose draws are all constant, giving one concrete generator run. -/
def g0 : Rng :=
  { company := fun _ => "F", contato := fun _ => "c", emailForn := fun _ => "e",
    foneForn := fun _ => "t", nomeProd := fun _ => "P", catPick := fun _ => 0,
    custoU := fun _ => 10, markupU := fun _ => 2, fornPick := fun _ => 0,
    nomeCli := fun _ => "C", emailCli := fun _ => "e", foneCli := fun _ => "t",
    enderCli := fun _ => "r", cidadeCli := fun _ => "x", estadoCli := fun _ => "SP",
    regiaoPick := fun _ => 0, cadastroU := fun _ => ⟨2023, 1, 1⟩,
    nomeVend := fun _ => "V", emailVend := fun _ => "e", matriculaU := fun _ => "m",
    equipePick := fun _ => 0, prodPick := fun _ => 0, qtyU := fun _ => 0,
    dataU := fun _ => ⟨2024, 1, 2⟩, cliPick := fun _ => 0, vendPick := fun _ => 0,
    pagPick := fun _ => 0 }

/-- The first sale of the `g0` run. -/
def sale0 : Venda :=
  { id_venda := 1, id_produto := 1, id_cliente := 1, id_vendedor := 1,
    data_venda := ⟨2024, 1, 2⟩, quantidade_vendida := 1, valor_total_venda := 20,
    metodo_pagamento := "Cartão de Crédito" }

/-- The first product of the `g0` run. -/
def prod0 : Produto :=
  { id_produto := 1, nome_produto := "P", categoria_produto := "Eletrônicos",
    preco_custo := 10, preco_venda_unitario := 20, id_fornecedor := 1 }

def exFornecedor : Fornecedor :=
  { id_fornecedor := 1, nome_fornecedor := "F", contato_fornecedor := "c",
    email_fornecedor := "e", telefone_fornecedor := "t" }

def exProduto : Produto :=
  { id_produto := 1, nome_produto := "P", categoria_produto := "Livros",
    preco_custo := 5, preco_venda_unitario := 10, id_fornecedor := 1 }

def exCliente : Cliente :=
  { id_cliente := 1, nome_cliente := "C", email_cliente := "e", telefone_cliente := "t",
    endereco_cliente := "r", cidade_cliente := "x", estado_cliente := "SP",
    pais_cliente := "Brasil", regiao_cliente := "Sudeste", data_cadastro := ⟨2023, 1, 1⟩ }

def exVendedor : Vendedor :=
  { id_vendedor := 1, nome_vendedor := "V", email_vendedor := "e",
    matricula_vendedor := "m", equipe_vendas := "Equipe Alpha" }

/-- A sale whose product foreign key (1) resolves. -/
def exVenda1 : Venda :=
  { id_venda := 1, id_produto := 1, id_cliente := 1, id_vendedor := 1,
    data_venda := ⟨2024, 1, 2⟩, quantidade_vendida := 2, valor_total_venda := 20,
    metodo_pagamento := "PIX" }

/-- A sale whose product foreign key (99) has no matching product row. -/
def exVenda2 : Venda :=
  { id_venda := 2, id_produto := 99, id_cliente := 1, id_vendedor := 1,
    data_venda := ⟨2024, 2, 3⟩, quantidade_vendida := 1, valor_total_venda := 10,
    metodo_pagamento := "PIX" }

/-- A file system holding all five CSVs, suppliers included. -/
def filesWithSuppliers : Files :=
  { produtos := some [exProduto], clientes := some [exCliente],
    vendedores := some [exVendedor], vendas := some [exVenda1],
    fornecedores := some [exFornecedor] }

/-- The same file system with fornecedores.csv missing. -/
def filesWithoutSuppliers : Files :=
  { produtos := some [exProduto], clientes := some [exCliente],
    vendedores := some [exVendedor], vendas := some [exVenda1],
    fornecedores := none }

/-- A sale whose stored `valor_total_venda` is 0. -/
def vendaZeroTotal : Venda :=
  { id_venda := 1, id_produto := 1, id_cliente := 1, id_vendedor := 1,
    data_venda := ⟨2024, 1, 2⟩, quantidade_vendida := 1, valor_total_venda := 0,
    metodo_pagamento := "PIX" }

/-- A denormalized row whose stored `valor_total_venda` is 0 while the profit
is 5 (sale price 10, cost 5, quantity 1). -/
def rowZeroTotal : MergedRow :=
  { venda := vendaZeroTotal, produto := some exProduto, cliente := none, vendedor := none }

def exVendaN (i : Nat) (v : ℚ) : Venda :=
  { id_venda := i, id_produto := 1, id_cliente := 1, id_vendedor := i,
    data_venda := ⟨2024, 1, 1⟩, quantidade_vendida := 1, valor_total_venda := v,
    metodo_pagamento := "PIX" }

def exVendedorN (i : Nat) (nome : String) : Vendedor :=
  { id_vendedor := i, nome_vendedor := nome, email_vendedor := "e",
    matricula_vendedor := "m", equipe_vendas := "Equipe Alpha" }

def exRowV (i : Nat) (nome : String) (v : ℚ) : MergedRow :=
  { venda := exVendaN i v, produto := none, cliente := none,
    vendedor := some (exVendedorN i nome) }

/-- Four sellers; the sums are Z ↦ 10, B ↦ 20, C ↦ 15, A ↦ 10, with the tie
between Z (encountered first) and A (alphabetically first) at the Top-3 cut. -/
def exDf : List MergedRow :=
  [exRowV 1 "Z" 10, exRowV 2 "B" 20, exRowV 3 "C" 15, exRowV 4 "A" 10]

/-- A file system whose vendas.csv contains a sale with a dangling product
foreign key, used to exhibit the null-keeping left-join behavior. -/
def filesDangling : Files :=
  { produtos := some [exProduto], clientes := some [exCliente],
    vendedores := some [exVendedor], vendas := some [exVenda1, exVenda2],
    fornecedores := none }

/-! Claim theorems. -/

/-- C1, counterexample: the transform's load step does NOT load all five base
tables — the fornecedores.csv read is commented out in the source. Concretely,
two file systems that differ only in the suppliers table load identically, and
loading succeeds even with the suppliers file missing. -/
theorem c1_load_ignores_suppliers :
    filesWithSuppliers.fornecedores ≠ filesWithoutSuppliers.fornecedores ∧
    load_data filesWithSuppliers = load_data filesWithoutSuppliers ∧
    (load_data filesWithoutSuppliers).isSome = true := by decide

/-- C1 (amended): the transform step loads four of the five base tables
(suppliers are not loaded) and left-joins Sale with Product, Customer and
Seller on their keys; with duplicate-free parent key columns the denormalized
record set has exactly one row per Sale row, in order, each row carrying the
unique matching parent attributes, and a sale whose foreign key has no
matching parent keeps `none` (null) attribute columns rather than being
dropped. -/
theorem c1_left_join_one_row_per_sale (fs : Files) (P : List Produto) (C : List Cliente)
    (S : List Vendedor) (V : List Venda)
    (_hload : load_data fs = some (P, C, S, V))
    (hP : (P.map Produto.id_produto).Nodup) (hC : (C.map Cliente.id_cliente).Nodup)
    (hS : (S.map Vendedor.id_vendedor).Nodup) :
    df_merged P C S V = V.map (fun v =>
      { venda := v
        produto := P.find? (fun p => p.id_produto == v.id_produto)
        cliente := C.find? (fun c => c.id_cliente == v.id_cliente)
        vendedor := S.find? (fun s => s.id_vendedor == v.id_vendedor) }) ∧
    (df_merged P C S V).length = V.length := by
  have h := df_merged_eq_map P C S V hP hC hS
  exact ⟨h, by rw [h, List.length_map]⟩

/-- Witness for C1: a concrete load-and-join run over files containing a sale
with a dangling product foreign key. -/
theorem c1_left_join_one_row_per_sale_witness :
    load_data filesDangling =
      some ([exProduto], [exCliente], [exVendedor], [exVenda1, exVenda2]) ∧
    ([exProduto].map Produto.id_produto).Nodup ∧
    ([exCliente].map Cliente.id_cliente).Nodup ∧
    ([exVendedor].map Vendedor.id_vendedor).Nodup ∧
    (df_merged [exProduto] [exCliente] [exVendedor] [exVenda1, exVenda2] =
      [exVenda1, exVenda2].map (fun v =>
        { venda := v
          produto := [exProduto].find? (fun p => p.id_produto == v.id_produto)
          cliente := [exCliente].find? (fun c => c.id_cliente == v.id_cliente)
          vendedor := [exVendedor].find? (fun s => s.id_vendedor == v.id_vendedor) }) ∧
      (df_merged [exProduto] [exCliente] [exVendedor] [exVenda1, exVenda2]).length =
        [exVenda1, exVenda2].length) :=
  ⟨by decide, by decide, by decide, by decide,
    c1_left_join_one_row_per_sale filesDangling [exProduto] [exCliente] [exVendedor]
      [exVenda1, exVenda2] (by decide) (by decide) (by decide) (by decide)⟩

unseal Rat.add Rat.mul Rat.inv Rat.sub in
/-- C2, code-bug evidence: on a denormalized row with `valor_total_venda = 0`
and nonzero profit (sale price 10, cost 5, quantity 1, so profit 5), the
derived margin column is +infinity, not 0: the source's `.fillna(0)` — whose
own comment says it treats the `valor_total_venda = 0` case — replaces only
NaN (the 0/0 case), while 5/0 yields inf, which `fillna` leaves in place. -/
theorem c2_margin_inf_on_zero_total :
    rowZeroTotal.venda.valor_total_venda = 0 ∧
    lucro_venda rowZeroTotal = FV.num 5 ∧
    margem_lucro_percentual rowZeroTotal = FV.inf ∧
    FV.inf ≠ FV.num 0 := by decide

/-- C3: filtering with the sentinel select-all choice on all five
set-membership dimensions and the date range [min sale date, max sale date]
of the data returns the denormalized set unchanged — same rows, same order,
same content. -/
theorem c3_select_all_filter_identity (df : List MergedRow) :
    df_filtered df (dminList (df.map (fun r => r.venda.data_venda)))
      (dmaxList (df.map (fun r => r.venda.data_venda)))
      (resolveSel (some "Todos") [some "Todos"] (allVals nome_produto df))
      (resolveSel (some "Todas") [some "Todas"] (allVals categoria_produto df))
      (resolveSel (some "Todos") [some "Todos"] (allVals nome_cliente df))
      (resolveSel (some "Todas") [some "Todas"] (allVals regiao_cliente df))
      (resolveSel (some "Todos") [some "Todos"] (allVals nome_vendedor df)) = df := by
  unfold df_filtered
  apply List.filter_eq_self.mpr
  intro r hr
  have hsel : ∀ (s : Option String) (l : List (Option String)), resolveSel s [s] l = l := by
    intro s l; simp [resolveSel]
  rw [hsel, hsel, hsel, hsel, hsel]
  have h1 : dle (dminList (df.map (fun r => r.venda.data_venda))) r.venda.data_venda :=
    dminList_le _ _ (List.mem_map_of_mem _ hr)
  have h2 : dle r.venda.data_venda (dmaxList (df.map (fun r => r.venda.data_venda))) :=
    le_dmaxList _ _ (List.mem_map_of_mem _ hr)
  simp [h1, h2, List.contains_iff_exists_mem_beq]
  and_intros <;> exact mem_allVals _ _ _ hr

/-- C4: every generated sale's stored `valor_total_venda` equals the
referenced product's `preco_venda_unitario` multiplied by the sale's
quantity, rounded to 2 decimal places — for every possible run of the
generator. -/
theorem c4_total_value_eq_price_times_qty (g : Rng) (v : Venda) (p : Produto)
    (hv : v ∈ vendas_data g) (hp : p ∈ produtos_data g)
    (hid : p.id_produto = v.id_produto) :
    v.valor_total_venda = round2 (p.preco_venda_unitario * (v.quantidade_vendida : ℚ)) := by
  rcases List.mem_map.mp hv with ⟨j, hj, rfl⟩
  have hkeys : ((precos_produtos g).map Prod.fst).Nodup := by
    have heq : (precos_produtos g).map Prod.fst = produto_ids g := by
      unfold precos_produtos produto_ids
      rw [List.map_map]
      rfl
    rw [heq, produto_ids_eq]
    exact List.nodup_range' 1 NUM_PRODUTOS
  have hpair : (p.id_produto, p.preco_venda_unitario) ∈ precos_produtos g :=
    List.mem_map_of_mem _ hp
  have hlook := lookup_of_nodup_keys _ hkeys _ _ hpair
  dsimp only at hid ⊢
  rw [hid] at hlook
  rw [hlook]
  simp

set_option maxRecDepth 10000 in
unseal Rat.add Rat.mul Rat.inv Rat.sub in
/-- Witness for C4: the first sale and first product of the concrete `g0` run
(cost 10, markup 2, so unit price 20; quantity 1; stored total 20). -/
theorem c4_total_value_eq_price_times_qty_witness :
    sale0 ∈ vendas_data g0 ∧ prod0 ∈ produtos_data g0 ∧
    prod0.id_produto = sale0.id_produto ∧
    sale0.valor_total_venda = round2 (prod0.preco_venda_unitario * (sale0.quantidade_vendida : ℚ)) := by
  have h1 : sale0 ∈ vendas_data g0 :=
    List.mem_map.mpr ⟨0, List.mem_range.mpr (by decide), by decide⟩
  have h2 : prod0 ∈ produtos_data g0 :=
    List.mem_map.mpr ⟨0, List.mem_range.mpr (by decide), by decide⟩
  exact ⟨h1, h2, by decide, c4_total_value_eq_price_times_qty g0 sale0 prod0 h1 h2 (by decide)⟩

/-- C5: every foreign key the generator emits resolves: each sale's product,
customer and seller ids occur in the respective parent id columns, and each
product's supplier id occurs in the supplier id column — for every possible
run of the generator. -/
theorem c5_foreign_keys_resolve (g : Rng) :
    (∀ v ∈ vendas_data g, v.id_produto ∈ produto_ids g ∧ v.id_cliente ∈ cliente_ids g ∧
      v.id_vendedor ∈ vendedor_ids g) ∧
    (∀ p ∈ produtos_data g, p.id_fornecedor ∈ fornecedor_ids g) := by
  constructor
  · intro v hv
    rcases List.mem_map.mp hv with ⟨j, hj, rfl⟩
    dsimp only
    exact ⟨choiceL_mem _ _ _ (produto_ids_ne_nil g), choiceL_mem _ _ _ (cliente_ids_ne_nil g),
      choiceL_mem _ _ _ (vendedor_ids_ne_nil g)⟩
  · intro p hp
    rcases List.mem_map.mp hp with ⟨j, hj, rfl⟩
    dsimp only
    exact choiceL_mem _ _ _ (fornecedor_ids_ne_nil g)

set_option maxRecDepth 10000 in
unseal Rat.add Rat.mul Rat.inv Rat.sub in
/-- Witness for C5: the first generated sale and product of the `g0` run have
resolving foreign keys. -/
theorem c5_foreign_keys_resolve_witness :
    sale0 ∈ vendas_data g0 ∧ prod0 ∈ produtos_data g0 ∧
    (sale0.id_produto ∈ produto_ids g0 ∧ sale0.id_cliente ∈ cliente_ids g0 ∧
      sale0.id_vendedor ∈ vendedor_ids g0) ∧
    prod0.id_fornecedor ∈ fornecedor_ids g0 := by
  have h1 : sale0 ∈ vendas_data g0 :=
    List.mem_map.mpr ⟨0, List.mem_range.mpr (by decide), by decide⟩
  have h2 : prod0 ∈ produtos_data g0 :=
    List.mem_map.mpr ⟨0, List.mem_range.mpr (by decide), by decide⟩
  exact ⟨h1, h2, (c5_foreign_keys_resolve g0).1 sale0 h1, (c5_foreign_keys_resolve g0).2 prod0 h2⟩

unseal Rat.add Rat.mul Rat.inv Rat.sub in
/-- C6, counterexample: ties are NOT broken by first-encountered grouping
order. On `exDf` (sellers in encounter order Z, B, C, A with sums 10, 20, 15,
10), the code's Top-3 keeps A — because the groupby output is sorted by key
and `nlargest` takes the first of the tied entries in that sorted order —
while the first-encountered tie-break mandated by the claim would keep Z. -/
theorem c6_tie_break_not_first_encountered :
    df_top_vendedores exDf 3 = [("B", 20), ("C", 15), ("A", 10)] ∧
    topN_firstEncountered exDf nome_vendedor valorCol 3 = [("B", 20), ("C", 15), ("Z", 10)] ∧
    df_top_vendedores exDf 3 ≠ topN_firstEncountered exDf nome_vendedor valorCol 3 := by
  have h1 : df_top_vendedores exDf 3 = [("B", 20), ("C", 15), ("A", 10)] := by
    simp +decide [df_top_vendedores, nlargest, groupbySum, groupSum, uniq, exDf, exRowV,
      exVendaN, exVendedorN, nome_vendedor, valorCol, List.mergeSort, List.merge, strLe,
      List.filterMap, List.filter, List.foldl]
  have h2 : topN_firstEncountered exDf nome_vendedor valorCol 3 =
      [("B", 20), ("C", 15), ("Z", 10)] := by
    simp +decide [topN_firstEncountered, nlargest, groupbySum, groupSum, uniq, exDf, exRowV,
      exVendaN, exVendedorN, nome_vendedor, valorCol, List.mergeSort, List.merge,
      List.filterMap, List.filter, List.foldl]
  refine ⟨h1, h2, ?_⟩
  rw [h1, h2]
  decide

/-- C6 (amended): for every filtered set and every N in [3,20], each Top-N
ranking groups by its dimension, sums its metric, and returns groups that are
largest by the summed metric — every group left out has a sum no greater than
any returned one — listed in descending metric order, with ties broken by
ascending group-key order (the sorted groupby order), not by first-encountered
order. -/
theorem c6_top_n_ranking_sound (df : List MergedRow) (n : Nat) (_h3 : 3 ≤ n) (_h20 : n ≤ 20) :
    TopNOk (df_top_vendedores df n) df nome_vendedor valorCol ∧
    TopNOk (df_top_produtos df true n) df nome_produto valorCol ∧
    TopNOk (df_top_produtos df false n) df nome_produto qtyCol ∧
    TopNOk (df_top_clientes df n) df nome_cliente valorCol := by
  refine ⟨topNOk_nlargest df nome_vendedor valorCol n, ?_, ?_,
    topNOk_nlargest df nome_cliente valorCol n⟩
  · simpa [df_top_produtos] using topNOk_nlargest df nome_produto valorCol n
  · simpa [df_top_produtos] using topNOk_nlargest df nome_produto qtyCol n

/-- Witness for C6: the four rankings on the concrete set `exDf` with N = 3. -/
theorem c6_top_n_ranking_sound_witness :
    (3 : Nat) ≤ 3 ∧ (3 : Nat) ≤ 20 ∧
    (TopNOk (df_top_vendedores exDf 3) exDf nome_vendedor valorCol ∧
     TopNOk (df_top_produtos exDf true 3) exDf nome_produto valorCol ∧
     TopNOk (df_top_produtos exDf false 3) exDf nome_produto qtyCol ∧
     TopNOk (df_top_clientes exDf 3) exDf nome_cliente valorCol) :=
  ⟨by decide, by decide, c6_top_n_ranking_sound exDf 3 (by decide) (by decide)⟩

/-- C7: when the filtered set is empty, the KPI computation returns total
sum 0, profit sum 0, distinct-sale count 0 and average 0 (the average is
sum/count with 0 substituted when the count is 0, by the source's explicit
guard); the computation is total, so no error is raised. -/
theorem c7_kpis_on_empty_filter (df : List MergedRow) (sd ed : Date)
    (ps cs ns rs ss : List (Option String))
    (h : df_filtered df sd ed ps cs ns rs ss = []) :
    kpis (df_filtered df sd ed ps cs ns rs ss) = (0, FV.num 0, 0, 0) := by
  rw [h]; rfl

/-- Witness for C7: an empty frame filters to the empty set and yields the
all-zero KPI bundle. -/
theorem c7_kpis_on_empty_filter_witness :
    df_filtered [] ⟨2024, 1, 1⟩ ⟨2024, 12, 31⟩ [] [] [] [] [] = [] ∧
    kpis (df_filtered [] ⟨2024, 1, 1⟩ ⟨2024, 12, 31⟩ [] [] [] [] []) = (0, FV.num 0, 0, 0) :=
  ⟨rfl, c7_kpis_on_empty_filter [] _ _ _ _ _ _ _ rfl⟩

/-- C8: the filter is a pure selection: its output is a sublist of the input
denormalized set (rows kept verbatim, in input order), every output row is an
input row with all fields unchanged, and no row occurs more often in the
output than in the input. -/
theorem c8_filter_is_pure_selection (df : List MergedRow) (sd ed : Date)
    (ps cs ns rs ss : List (Option String)) :
    (df_filtered df sd ed ps cs ns rs ss).Sublist df ∧
    (∀ r ∈ df_filtered df sd ed ps cs ns rs ss, r ∈ df) ∧
    (∀ r : MergedRow, (df_filtered df sd ed ps cs ns rs ss).count r ≤ df.count r) :=
  ⟨List.filter_sublist df, fun _ hr => (List.filter_sublist df).subset hr,
    fun r => (List.filter_sublist df).count_le r⟩

/-- C9: in every table the generator produces — on every run — the
primary-key column is exactly the consecutive integers 1..N, N being that
table's configured count; in particular all primary keys are distinct and no
table is empty. -/
theorem c9_primary_keys_consecutive (g : Rng) :
    ((fornecedores_data g).map Fornecedor.id_fornecedor = List.range' 1 NUM_FORNECEDORES ∧
     (produtos_data g).map Produto.id_produto = List.range' 1 NUM_PRODUTOS ∧
     (clientes_data g).map Cliente.id_cliente = List.range' 1 NUM_CLIENTES ∧
     (vendedores_data g).map Vendedor.id_vendedor = List.range' 1 NUM_VENDEDORES ∧
     (vendas_data g).map Venda.id_venda = List.range' 1 NUM_VENDAS) ∧
    (((fornecedores_data g).map Fornecedor.id_fornecedor).Nodup ∧
     ((produtos_data g).map Produto.id_produto).Nodup ∧
     ((clientes_data g).map Cliente.id_cliente).Nodup ∧
     ((vendedores_data g).map Vendedor.id_vendedor).Nodup ∧
     ((vendas_data g).map Venda.id_venda).Nodup) ∧
    (fornecedores_data g ≠ [] ∧ produtos_data g ≠ [] ∧ clientes_data g ≠ [] ∧
     vendedores_data g ≠ [] ∧ vendas_data g ≠ []) := by
  refine ⟨⟨fornecedor_ids_eq g, produto_ids_eq g, cliente_ids_eq g, vendedor_ids_eq g,
    venda_ids_eq g⟩, ⟨?_, ?_, ?_, ?_, ?_⟩, ⟨?_, ?_, ?_, ?_, ?_⟩⟩
  · show (fornecedor_ids g).Nodup
    rw [fornecedor_ids_eq]
    exact List.nodup_range' 1 NUM_FORNECEDORES
  · show (produto_ids g).Nodup
    rw [produto_ids_eq]
    exact List.nodup_range' 1 NUM_PRODUTOS
  · show (cliente_ids g).Nodup
    rw [cliente_ids_eq]
    exact List.nodup_range' 1 NUM_CLIENTES
  · show (vendedor_ids g).Nodup
    rw [vendedor_ids_eq]
    exact List.nodup_range' 1 NUM_VENDEDORES
  · rw [venda_ids_eq g]
    exact List.nodup_range' 1 NUM_VENDAS
  · exact List.ne_nil_of_length_pos (by simp [fornecedores_data, NUM_FORNECEDORES])
  · exact List.ne_nil_of_length_pos (by simp [produtos_data, NUM_PRODUTOS])
  · exact List.ne_nil_of_length_pos (by simp [clientes_data, NUM_CLIENTES])
  · exact List.ne_nil_of_length_pos (by simp [vendedores_data, NUM_VENDEDORES])
  · exact List.ne_nil_of_length_pos (by simp [vendas_data, NUM_VENDAS])

/-- C10: for every filtered set and every N in [3,20], each Top-N ranking
returns exactly min(N, number of distinct groups) entries; when there are
fewer than N distinct groups it returns all of them, without error. -/
theorem c10_top_n_length (df : List MergedRow) (n : Nat) (_h3 : 3 ≤ n) (_h20 : n ≤ 20) :
    (df_top_vendedores df n).length = min n (uniq (df.filterMap nome_vendedor)).length ∧
    (df_top_produtos df true n).length = min n (uniq (df.filterMap nome_produto)).length ∧
    (df_top_produtos df false n).length = min n (uniq (df.filterMap nome_produto)).length ∧
    (df_top_clientes df n).length = min n (uniq (df.filterMap nome_cliente)).length := by
  refine ⟨?_, ?_, ?_, ?_⟩ <;>
    simp [df_top_vendedores, df_top_produtos, df_top_clientes, nlargest, groupbySum,
      List.length_take]

/-- Witness for C10: the four rankings on the concrete set `exDf` (4 distinct
sellers, 0 distinct products, 0 distinct customers) with N = 3. -/
theorem c10_top_n_length_witness :
    (3 : Nat) ≤ 3 ∧ (3 : Nat) ≤ 20 ∧
    ((df_top_vendedores exDf 3).length = min 3 (uniq (exDf.filterMap nome_vendedor)).length ∧
     (df_top_produtos exDf true 3).length = min 3 (uniq (exDf.filterMap nome_produto)).length ∧
     (df_top_produtos exDf false 3).length = min 3 (uniq (exDf.filterMap nome_produto)).length ∧
     (df_top_clientes exDf 3).length = min 3 (uniq (exDf.filterMap nome_cliente)).length) :=
  ⟨by decide, by decide, c10_top_n_length exDf 3 (by decide) (by decide)⟩
